import Mathlib

/-!
Verification of mozsessiontool (src/mozsessiontool.py) against its
natural-language specification.

The Python module is shallowly embedded: JSON documents become the
inductive type `JVal` (objects are ordered association lists, mirroring
Python dict insertion order), fallible dict/list subscripts become
`Except PyErr` computations, and each relevant function or `main` branch
of the source becomes a Lean definition with the same name where
possible.  Machine integers do not overflow in any modelled path, so
`Int` is used directly.
-/

set_option maxRecDepth 16384

/-- A JSON value as produced by Python `json.load`: objects keep key
insertion order, numbers in the modelled documents are integers. -/
inductive JVal where
  | null : JVal
  | bool : Bool → JVal
  | num : Int → JVal
  | str : String → JVal
  | arr : List JVal → JVal
  | obj : List (String × JVal) → JVal
deriving Repr

/-- Python exceptions raised by the modelled code paths, plus the
spec-side `NotFoundError` used to state claim C8 (the spec names it;
the code itself never constructs it). -/
inductive PyErr where
  | keyError (k : String)
  | indexError
  | typeError
  | valueError (check : List Nat)
  | runtimeError (profile : String)
  | assertionError
  | notFoundError (roots : List String)
deriving DecidableEq, Repr

/-- First-match lookup in an ordered association list (Python `d[k]` on
a dict with unique keys). -/
def lookupKV (o : List (String × JVal)) (k : String) : Option JVal :=
  match o with
  | [] => none
  | (k', v') :: rest => if k' = k then some v' else lookupKV rest k

/-- Python `d[k] = v`: replace the value in place (keeping the key's
position) when the key is present, else append the new pair. -/
def objSet (o : List (String × JVal)) (k : String) (v : JVal) : List (String × JVal) :=
  match o with
  | [] => [(k, v)]
  | (k', v') :: rest => if k' = k then (k, v) :: rest else (k', v') :: objSet rest k v

/-- Python `del d[k]` on a dict (unique keys): drop the key.  (On a
list with duplicate keys this drops all of them; dicts cannot have
duplicates.) -/
def objDel (o : List (String × JVal)) (k : String) : List (String × JVal) :=
  match o with
  | [] => []
  | (k', v') :: rest => if k' = k then objDel rest k else (k', v') :: objDel rest k

/-- Lookup on a `JVal`, `none` when not an object or key absent. -/
def objGet (v : JVal) (k : String) : Option JVal :=
  match v with
  | .obj o => lookupKV o k
  | _ => none

/-- Python subscript `v[k]` with a string key: KeyError when the key is
absent, TypeError when `v` is not a dict. -/
def getItem (v : JVal) (k : String) : Except PyErr JVal :=
  match v with
  | .obj o =>
    match lookupKV o k with
    | some x => .ok x
    | none => .error (.keyError k)
  | _ => .error .typeError

/-- Python subscript assignment `v[k] = x` on a dict. -/
def setItem (v : JVal) (k : String) (x : JVal) : Except PyErr JVal :=
  match v with
  | .obj o => .ok (.obj (objSet o k x))
  | _ => .error .typeError

/-- Python `del v[k]` on a dict. -/
def delItem (v : JVal) (k : String) : Except PyErr JVal :=
  match v with
  | .obj o =>
    if (lookupKV o k).isSome then .ok (.obj (objDel o k)) else .error (.keyError k)
  | _ => .error .typeError

/-- Prefix test on character lists. -/
def listPrefixOf : List Char → List Char → Bool
  | [], _ => true
  | _ :: _, [] => false
  | a :: as, b :: bs => a = b && listPrefixOf as bs

/-- Infix test on character lists. -/
def listInfix (needle : List Char) : List Char → Bool
  | [] => listPrefixOf needle []
  | c :: rest => listPrefixOf needle (c :: rest) || listInfix needle rest

/-- Substring test (Python `needle in s` for strings). -/
def strContains (s needle : String) : Bool :=
  listInfix needle.data s.data

/-- Python membership `k in v` for a string key: dict key test, list
membership (a string only `==` a string), substring test on strings;
TypeError on non-containers. -/
def pyIn (k : String) (v : JVal) : Except PyErr Bool :=
  match v with
  | .obj o => .ok (lookupKV o k).isSome
  | .arr l => .ok (l.any fun x => match x with | .str s => s = k | _ => false)
  | .str s => .ok (strContains s k)
  | _ => .error .typeError

/-- Python truthiness of a JSON value. -/
def pyTruthy : JVal → Bool
  | .null => false
  | .bool b => b
  | .num i => i ≠ 0
  | .str s => s ≠ ""
  | .arr l => !l.isEmpty
  | .obj l => !l.isEmpty

/-- Python `len(v)` for JSON containers; TypeError otherwise. -/
def pyLen (v : JVal) : Except PyErr Int :=
  match v with
  | .arr l => .ok l.length
  | .obj o => .ok o.length
  | .str s => .ok s.length
  | _ => .error .typeError

/-- Coerce a JSON value used as an integer (Python bools are ints);
TypeError for the comparisons/arithmetic the code performs otherwise. -/
def asInt (v : JVal) : Except PyErr Int :=
  match v with
  | .num i => .ok i
  | .bool b => .ok (if b then 1 else 0)
  | _ => .error .typeError

/-- Python list subscript with negative-index wrap-around. -/
def pyIndex (l : List JVal) (i : Int) : Except PyErr JVal :=
  let j := if i < 0 then i + l.length else i
  if h : 0 ≤ j ∧ j < l.length then
    .ok (l.get ⟨j.toNat, by omega⟩)
  else .error .indexError

-- checkpointOrder / checkpointSkippable / checkpointNames
-- (mozsessiontool.py lines 52-70).

/-- The canonical checkpoint event order (`checkpointOrder`). -/
def checkpointOrder : List String :=
  ["profile-after-change", "final-ui-startup",
   "sessionstore-windows-restored", "quit-application-granted",
   "quit-application", "sessionstore-final-state-write-complete",
   "profile-change-net-teardown", "profile-change-teardown",
   "profile-before-change"]

/-- The skippable subset (`checkpointSkippable`). -/
def checkpointSkippable : List String :=
  ["sessionstore-windows-restored", "sessionstore-final-state-write-complete"]

/-- Human labels (`checkpointNames`); in the source a dict indexed only
at canonical events, so the catch-all branch is never reached. -/
def checkpointNames (e : String) : String :=
  if e = "profile-after-change" then "Starting"
  else if e = "final-ui-startup" then "Started, Loading session"
  else if e = "sessionstore-windows-restored" then "Running"
  else if e = "quit-application-granted" then "Stopping"
  else if e = "quit-application" then "Hidden"
  else if e = "sessionstore-final-state-write-complete" then "Session saved"
  else if e = "profile-change-net-teardown" then "Session saved, Connections closed"
  else if e = "profile-change-teardown" then "Session saved, Connections closed, Profile closing"
  else if e = "profile-before-change" then "Stopped"
  else ""

/-- A checkpoint map: checkpoint-name to boolean, in insertion order. -/
def CpMap := List (String × Bool)

/-- Lookup in a checkpoint map. -/
def cpLookup (m : List (String × Bool)) (k : String) : Option Bool :=
  match m with
  | [] => none
  | (k', v') :: rest => if k' = k then some v' else cpLookup rest k

/-- `dict.pop(k)` on a checkpoint map with unique keys. -/
def cpPop (m : List (String × Bool)) (k : String) : List (String × Bool) :=
  m.filter (fun p => p.1 ≠ k)

/-- `dict.__setitem__` on a checkpoint map (replace in place or append). -/
def cpSet (m : List (String × Bool)) (k : String) (v : Bool) : List (String × Bool) :=
  match m with
  | [] => [(k, v)]
  | (k', v') :: rest => if k' = k then (k, v) :: rest else (k', v') :: cpSet rest k v

/-- The scan loop of `showcheckpoint` (lines 411-425): walks
`checkpointOrder`, consuming true events, recording absent skippable
events, stopping at the first other event or when the working copy is
empty.  Returns (state, remaining working copy, skipped list). -/
def scanCheckpoints : List String → String → List (String × Bool) → List String →
    String × List (String × Bool) × List String
  | [], state, m, skipped => (state, m, skipped)
  | event :: rest, state, m, skipped =>
    if m.isEmpty then (state, m, skipped)
    else
      match cpLookup m event with
      | some true =>
        scanCheckpoints rest (checkpointNames event ++ " (" ++ event ++ ")") (cpPop m event) skipped
      | some false =>
        if checkpointSkippable.contains event then scanCheckpoints rest state m skipped
        else (state, m, skipped)
      | none =>
        if checkpointSkippable.contains event then
          scanCheckpoints rest state m (skipped ++ [event])
        else (state, m, skipped)

/-- `showcheckpoint` (lines 410-431).  Note the source assigns `rest`
twice: when the working copy is non-empty the remaining-keys suffix
replaces any skipped suffix rather than appending to it. -/
def showcheckpoint (m : List (String × Bool)) : String :=
  let r := scanCheckpoints checkpointOrder "Init" m []
  let state := r.1
  let remaining := r.2.1
  let skipped := r.2.2
  let rest := if !skipped.isEmpty then "; skipped: " ++ String.intercalate ", " skipped else ""
  let rest :=
    if !remaining.isEmpty then
      "; " ++ String.intercalate ", "
        (remaining.map fun kv => (if kv.2 then "" else "not ") ++ kv.1)
    else rest
  state ++ rest

/-- The checkpoint map of the C3 counterexample: two events reached in
order, one skippable event absent, one later event explicitly false. -/
def c3map : List (String × Bool) :=
  [("profile-after-change", true), ("final-ui-startup", true),
   ("quit-application-granted", false)]

-- Serialization: `json.dumps(..., ensure_ascii=True, separators=(",", ":"))`
-- as used by `SessionStoreJsonMixin._write_sessionstore` (lines 273-277).

/-- Lower-case hex digit. -/
def hexDigit (n : Nat) : Char :=
  if n < 10 then Char.ofNat (48 + n) else Char.ofNat (87 + n)

/-- Four-digit lower-case hex, as in JSON `\uXXXX` escapes. -/
def hex4 (n : Nat) : String :=
  String.mk [hexDigit (n / 4096 % 16), hexDigit (n / 256 % 16),
             hexDigit (n / 16 % 16), hexDigit (n % 16)]

/-- Escape of a single character under `ensure_ascii=True`: named
escapes, `\uXXXX` (with surrogate pairs above the BMP) for other
control or non-ASCII characters, the character itself otherwise. -/
def escapeChar (c : Char) : String :=
  if c = '"' then "\\\""
  else if c = '\\' then "\\\\"
  else if c = '\n' then "\\n"
  else if c = '\r' then "\\r"
  else if c = '\t' then "\\t"
  else if c.toNat = 8 then "\\b"
  else if c.toNat = 12 then "\\f"
  else if c.toNat < 32 ∨ c.toNat ≥ 127 then
    if c.toNat ≥ 65536 then
      "\\u" ++ hex4 (55296 + (c.toNat - 65536) / 1024) ++
      "\\u" ++ hex4 (56320 + (c.toNat - 65536) % 1024)
    else "\\u" ++ hex4 c.toNat
  else String.singleton c

/-- JSON string-body escaping. -/
def escapeStr (s : String) : String :=
  String.join (s.data.map escapeChar)

mutual

/-- `json.dumps(v, ensure_ascii=True, separators=(",", ":"))`. -/
def dumps : JVal → String
  | .null => "null"
  | .bool b => if b then "true" else "false"
  | .num i => toString i
  | .str s => "\"" ++ escapeStr s ++ "\""
  | .arr xs => "[" ++ String.intercalate "," (dumpsList xs) ++ "]"
  | .obj kvs => "\x7b" ++ String.intercalate "," (dumpsObj kvs) ++ "\x7d"

/-- Serialization of the elements of a JSON array. -/
def dumpsList : List JVal → List String
  | [] => []
  | x :: xs => dumps x :: dumpsList xs

/-- Serialization of the members of a JSON object. -/
def dumpsObj : List (String × JVal) → List String
  | [] => []
  | (k, v) :: xs => ("\"" ++ escapeStr k ++ "\":" ++ dumps v) :: dumpsObj xs

end

/-- Coerce to a JSON array (list subscripts and `list.pop` in the source
are only applied to arrays; other shapes fail). -/
def asArr (v : JVal) : Except PyErr (List JVal) :=
  match v with
  | .arr l => .ok l
  | _ => .error .typeError

/-- Python `v == "s"`: true only for an equal string. -/
def isStrVal (v : JVal) (s : String) : Bool :=
  match v with
  | .str s' => s' = s
  | _ => false

/-- `tabs_info` (lines 452-457): the tab's active history entry when
`entries` is truthy, else a placeholder built from `userTypedValue` and
`title`. -/
def tabs_info (tab : JVal) : Except PyErr JVal := do
  let o ← (match tab with | .obj o => Except.ok o | _ => Except.error PyErr.typeError)
  if (lookupKV o "entries").elim false pyTruthy then do
    let entriesArr ← asArr (← getItem tab "entries")
    let idx ← asInt (← getItem tab "index")
    pyIndex entriesArr (idx - 1)
  else if (lookupKV o "userTypedValue").isNone then
    pure (.obj [("url", .str "about:blank"),
                ("title", (lookupKV o "title").getD (.str "New tab"))])
  else
    pure (.obj [("url", (lookupKV o "userTypedValue").getD .null),
                ("title", (lookupKV o "title").getD (.str "Loading..."))])

-- The five `main` action branches (lines 606-645).  `w` and `t` are
-- the already-validated `args.window` / `args.tab` (main has enforced
-- `1 <= w <= len(windows)` and `1 <= t <= len(tabs)` before any action
-- runs), and `now` stands for `int(time.time())`.

/-- `main` wselect branch (line 607). -/
def wselectAction (w : Nat) (ss : JVal) : Except PyErr JVal :=
  setItem ss "selectedWindow" (.num w)

/-- `main` tselect branch (lines 608-609). -/
def tselectAction (w t : Nat) (ss : JVal) : Except PyErr JVal := do
  let wsArr ← asArr (← getItem ss "windows")
  let window ← (match wsArr.get? (w - 1) with
    | some x => Except.ok x
    | none => Except.error PyErr.indexError)
  let window ← setItem window "selected" (.num t)
  setItem ss "windows" (.arr (wsArr.set (w - 1) window))

/-- `main` wclose branch (lines 610-620): pop the window, then the
(inverted, see C1) clamp test `len(windows) > selectedWindow`, strip
`busy`, stamp `closedAt`, set `title` from the window's current tab's
current entry, and append the window to `_closedWindows`. -/
def wcloseAction (w : Nat) (now : Int) (ss : JVal) : Except PyErr JVal := do
  let wsArr ← asArr (← getItem ss "windows")
  let window ← (match wsArr.get? (w - 1) with
    | some x => Except.ok x
    | none => Except.error PyErr.indexError)
  let wsArr := wsArr.eraseIdx (w - 1)
  let ss ← setItem ss "windows" (.arr wsArr)
  let sel ← asInt (← getItem ss "selectedWindow")
  let ss ← if (wsArr.length : Int) > sel then
      setItem ss "selectedWindow" (.num wsArr.length)
    else pure ss
  let hasBusy ← pyIn "busy" window
  let window ← if hasBusy then delItem window "busy" else pure window
  let window ← setItem window "closedAt" (.num now)
  let tabsArr ← asArr (← getItem window "tabs")
  let tsel ← asInt (← getItem window "selected")
  let tab ← pyIndex tabsArr (tsel - 1)
  let url ← tabs_info tab
  let title ← getItem url "title"
  let window ← setItem window "title" title
  let cwArr ← asArr (← getItem ss "_closedWindows")
  setItem ss "_closedWindows" (.arr (cwArr ++ [window]))

/-- `main` tclose branch (lines 621-632): pop the tab, the (inverted,
see C1) clamp test `len(tabs) > selected`, build the closed-tab record
`closedAt`/`pos`/`state` plus optional `title`/`image`, and append it
to the window's `_closedTabs`. -/
def tcloseAction (w t : Nat) (now : Int) (ss : JVal) : Except PyErr JVal := do
  let wsArr ← asArr (← getItem ss "windows")
  let window ← (match wsArr.get? (w - 1) with
    | some x => Except.ok x
    | none => Except.error PyErr.indexError)
  let tabsArr ← asArr (← getItem window "tabs")
  let tab ← (match tabsArr.get? (t - 1) with
    | some x => Except.ok x
    | none => Except.error PyErr.indexError)
  let tabsArr := tabsArr.eraseIdx (t - 1)
  let window ← setItem window "tabs" (.arr tabsArr)
  let sel ← asInt (← getItem window "selected")
  let window ← if (tabsArr.length : Int) > sel then
      setItem window "selected" (.num tabsArr.length)
    else pure window
  let url ← tabs_info tab
  let hasTitle ← pyIn "title" url
  let ct : List (String × JVal) := [("closedAt", .num now), ("pos", .num t), ("state", tab)]
  let ct ← if hasTitle then do
      let ti ← getItem url "title"
      pure (ct ++ [("title", ti)])
    else pure ct
  let hasImage ← pyIn "image" tab
  let ct ← if hasImage then do
      let im ← getItem tab "image"
      pure (ct ++ [("image", im)])
    else pure ct
  let ctsArr ← asArr (← getItem window "_closedTabs")
  let window ← setItem window "_closedTabs" (.arr (ctsArr ++ [.obj ct]))
  setItem ss "windows" (.arr (wsArr.set (w - 1) window))

/-- Nested `ss[k1][k2] = v` (the inner dict is mutated in place; here
the update is written back, which is equivalent since `k1` is present). -/
def setNested (ss : JVal) (k1 k2 : String) (v : JVal) : Except PyErr JVal := do
  let inner ← getItem ss k1
  let inner ← setItem inner k2 v
  setItem ss k1 inner

/-- Nested `del ss[k1][k2]`. -/
def delNested (ss : JVal) (k1 k2 : String) : Except PyErr JVal := do
  let inner ← getItem ss k1
  let inner ← delItem inner k2
  setItem ss k1 inner

/-- The session-metadata edits of the fix branch (lines 636-639): force
`session.state` to "stopped" when present, drop `session.recentCrashes`
when present. -/
def fixDocEdits (ss : JVal) : Except PyErr JVal := do
  let hasState ← pyIn "state" (← getItem ss "session")
  let ss ← if hasState then setNested ss "session" "state" (.str "stopped") else pure ss
  let hasRC ← pyIn "recentCrashes" (← getItem ss "session")
  if hasRC then delNested ss "session" "recentCrashes" else pure ss

/-- The crash-recovery wrapper test of the fix branch (lines 640-644):
exactly one window, one tab, one history entry whose url is
"about:sessionrestore", and the tab's `formdata.url` is the same
sentinel.  Evaluation mirrors the Python short-circuit `and` chain, so
a partially matching document can raise (KeyError on `formdata`). -/
def wrapperCheck (ss : JVal) : Except PyErr Bool := do
  let ws ← getItem ss "windows"
  let lw ← pyLen ws
  if lw = 1 then do
    let wsArr ← asArr ws
    let w0 ← pyIndex wsArr 0
    let tabs ← getItem w0 "tabs"
    let lt ← pyLen tabs
    if lt = 1 then do
      let tabsArr ← asArr tabs
      let t0 ← pyIndex tabsArr 0
      let entries ← getItem t0 "entries"
      let le ← pyLen entries
      if le = 1 then do
        let entriesArr ← asArr entries
        let e0 ← pyIndex entriesArr 0
        let u ← getItem e0 "url"
        if isStrVal u "about:sessionrestore" then do
          let fd ← getItem t0 "formdata"
          let fu ← getItem fd "url"
          pure (isStrVal fu "about:sessionrestore")
        else pure false
      else pure false
    else pure false
  else pure false

/-- The wrapper unwrap of the fix branch (line 645): replace the whole
document with `windows[0].tabs[0].formdata.id.sessionData`. -/
def unwrapDoc (ss : JVal) : Except PyErr JVal := do
  let wsArr ← asArr (← getItem ss "windows")
  let w0 ← pyIndex wsArr 0
  let tabsArr ← asArr (← getItem w0 "tabs")
  let t0 ← pyIndex tabsArr 0
  let fd ← getItem t0 "formdata"
  let idv ← getItem fd "id"
  getItem idv "sessionData"

/-- `checkpoints.update(dict((k, True) for k in checkpointOrder))`
(lines 634-635). -/
def cpFixAll (m : List (String × Bool)) : List (String × Bool) :=
  checkpointOrder.foldl (fun acc k => cpSet acc k true) m

/-- The whole fix branch (lines 633-645) on the in-memory state. -/
def fixAction (cps : Option (List (String × Bool))) (ss : JVal) :
    Except PyErr (JVal × Option (List (String × Bool))) := do
  let cps := cps.map cpFixAll
  let ss ← fixDocEdits ss
  let g ← wrapperCheck ss
  if g then do
    let ss ← unwrapDoc ss
    pure (ss, cps)
  else pure (ss, cps)

/-- The mutating actions accepted by `--action`. -/
inductive MozAction where
  | wselect
  | tselect
  | wclose
  | tclose
  | fix
deriving DecidableEq, Repr

/-- Dispatch of the action branches of `main` (lines 606-645). -/
def applyAction (a : MozAction) (w t : Nat) (now : Int) (ss : JVal)
    (cps : Option (List (String × Bool))) :
    Except PyErr (JVal × Option (List (String × Bool))) :=
  match a with
  | .wselect => do pure (← wselectAction w ss, cps)
  | .tselect => do pure (← tselectAction w t ss, cps)
  | .wclose => do pure (← wcloseAction w now ss, cps)
  | .tclose => do pure (← tcloseAction w t now ss, cps)
  | .fix => fixAction cps ss

/-- On-disk contents of the two underlying files. -/
structure FileState where
  session : String
  checkpoints : Option String
deriving DecidableEq, Repr

/-- `json.dumps(self.checkpoints)` with the default separators, as in
`CheckPointsJsonMixin._write_checkpoints` (lines 299-303). -/
def dumpsCp (m : List (String × Bool)) : String :=
  "\x7b" ++ String.intercalate ", "
    (m.map fun kv => "\"" ++ escapeStr kv.1 ++ "\": " ++ (if kv.2 then "true" else "false"))
  ++ "\x7d"

/-- The action/save tail of `main` (lines 605-661) as a file-state
transformer: `want_save` is "an action was requested"; an exception in
an action branch aborts the run before any write; with `--pretend` a
diff is printed and nothing is written; otherwise `store.save()`
truncates and rewrites both files with the re-serialized state. -/
def runMainTail (action : Option MozAction) (pretend : Bool) (w t : Nat) (now : Int)
    (ss : JVal) (cps : Option (List (String × Bool))) (files : FileState) :
    FileState × Option PyErr :=
  match action with
  | none => (files, none)
  | some a =>
    match applyAction a w t now ss cps with
    | .error e => (files, some e)
    | .ok (ss', cps') =>
      if pretend then (files, none)
      else ({ session := dumps ss', checkpoints := cps'.map dumpsCp }, none)

-- ProfileLocator: the four store variants and their probing
-- (lines 181-183, 335-407).

/-- The four on-disk layout variants, in probe priority order
`MozSessionProfile4, MozSessionProfile3, MozSessionProfile2,
MozSession1` as in `get_sessionstore`. -/
inductive StoreSel where
  | profile4 (profile : String)
  | profile3 (profile : String)
  | profile2 (profile : String)
  | session1 (filename : String)
deriving DecidableEq, Repr

/-- `_get_filenames` of each variant: primary data file and optional
checkpoint file (lines 341-363; `MozSession1` declares no checkpoint
file). -/
def getFilenames : StoreSel → String × Option String
  | .profile4 p => (p ++ "/sessionstore-backups/recovery.jsonlz4", some (p ++ "/sessionCheckpoints.json"))
  | .profile3 p => (p ++ "/sessionstore-backups/recovery.js", some (p ++ "/sessionCheckpoints.json"))
  | .profile2 p => (p ++ "/sessionstore.js", some (p ++ "/sessionCheckpoints.json"))
  | .session1 f => (f, none)

/-- A filesystem abstracted as the set of paths that are regular files. -/
def isfile (fs : List String) (fn : String) : Bool :=
  fs.contains fn

/-- `MozSessionBase.check` (lines 181-183): every non-None declared
filename must be a regular file. -/
def baseCheck (fs : List String) (fns : String × Option String) : Bool :=
  isfile fs fns.1 && (match fns.2 with
    | none => true
    | some c => isfile fs c)

/-- `MozSessionProfile4.check` (lines 365-372): the base check, then a
RuntimeError when lz4 support is unavailable. -/
def checkP4 (lz4Avail : Bool) (fs : List String) (p : String) : Except PyErr Bool :=
  if !baseCheck fs (getFilenames (.profile4 p)) then .ok false
  else if !lz4Avail then .error (.runtimeError p)
  else .ok true

/-- The inner class loop of `get_sessionstore` /
`get_profile_sessionstore`: probe the four variants in priority order
on one path. -/
def checkPath (lz4Avail : Bool) (fs : List String) (p : String) :
    Except PyErr (Option StoreSel) := do
  if (← checkP4 lz4Avail fs p) then pure (some (.profile4 p))
  else if baseCheck fs (getFilenames (.profile3 p)) then pure (some (.profile3 p))
  else if baseCheck fs (getFilenames (.profile2 p)) then pure (some (.profile2 p))
  else if baseCheck fs (getFilenames (.session1 p)) then pure (some (.session1 p))
  else pure none

/-- First path whose probe succeeds. -/
def firstStore (lz4Avail : Bool) (fs : List String) :
    List String → Except PyErr (Option StoreSel)
  | [] => .ok none
  | p :: rest => do
    match ← checkPath lz4Avail fs p with
    | some s => pure (some s)
    | none => firstStore lz4Avail fs rest

/-- `get_profile_sessionstore` (lines 386-394); `defaultProfiles` is
the result of globbing the platform profile directory for the default
profile names. -/
def get_profile_sessionstore (lz4Avail : Bool) (fs : List String)
    (defaultProfiles : List String) : Except PyErr (Option StoreSel) :=
  if defaultProfiles.isEmpty then .ok none
  else firstStore lz4Avail fs defaultProfiles

/-- `get_sessionstore` (lines 397-407); `namedProfiles` is the result
of globbing for profiles whose suffix is the given name. -/
def get_sessionstore (lz4Avail : Bool) (fs : List String)
    (namedProfiles defaultProfiles : List String) (path : Option String) :
    Except PyErr (Option StoreSel) := do
  match path with
  | some p =>
    match ← checkPath lz4Avail fs p with
    | some s => pure (some s)
    | none =>
      match ← firstStore lz4Avail fs namedProfiles with
      | some s => pure (some s)
      | none => get_profile_sessionstore lz4Avail fs defaultProfiles
  | none => get_profile_sessionstore lz4Avail fs defaultProfiles

/-- `store = get_sessionstore(args.path); assert store` in `main`
(lines 523-524): an unresolved store fails the bare assertion. -/
def mainResolve (lz4Avail : Bool) (fs : List String)
    (namedProfiles defaultProfiles : List String) (path : Option String) :
    Except PyErr StoreSel := do
  match ← get_sessionstore lz4Avail fs namedProfiles defaultProfiles path with
  | some s => pure s
  | none => .error .assertionError

-- FormatDecoder, LZ4 variant (lines 306-317).

/-- `SessionStoreLZ4Mixin.magicheader`, the bytes of b"mozLz40\x00". -/
def magicheader : List Nat :=
  [109, 111, 122, 76, 122, 52, 48, 0]

/-- `SessionStoreLZ4Mixin._open_sessionstore` (lines 310-317) on the
file's byte contents: read 8 bytes, raise ValueError unless they equal
the magic header, otherwise hand the remaining bytes to the reader. -/
def lz4OpenSessionstore (bytes : List Nat) : Except PyErr (List Nat) :=
  if bytes.take 8 = magicheader then .ok (bytes.drop 8)
  else .error (.valueError (bytes.take 8))

-- Query helpers used to state properties of concrete documents.

/-- Number of windows of a document. -/
def numWindows (d : JVal) : Option Nat :=
  match objGet d "windows" with
  | some (.arr ws) => some ws.length
  | _ => none

/-- A field of the i-th (0-based) window of a document. -/
def winField (d : JVal) (i : Nat) (k : String) : Option JVal :=
  match objGet d "windows" with
  | some (.arr ws) =>
    match ws.get? i with
    | some w => objGet w k
    | none => none
  | _ => none

/-- Number of tabs of the i-th (0-based) window of a document. -/
def numTabs (d : JVal) (i : Nat) : Option Nat :=
  match winField d i "tabs" with
  | some (.arr ts) => some ts.length
  | _ => none

-- Concrete documents used by the C1, C5, C6 and C10 theorems.

/-- A history entry with a url and a title. -/
def mkEntry (u ti : String) : JVal :=
  .obj [("url", .str u), ("title", .str ti)]

/-- A tab whose single history entry is current. -/
def mkTab (u ti : String) : JVal :=
  .obj [("entries", .arr [mkEntry u ti]), ("index", .num 1)]

/-- A window with the given tabs and selected tab index. -/
def mkWin (ts : List JVal) (sel : Int) : JVal :=
  .obj [("tabs", .arr ts), ("selected", .num sel), ("_closedTabs", .arr [])]

/-- C1 wclose failing input: two windows, `selectedWindow = 2`, and the
second window (a valid target) about to be closed. -/
def c1wdoc : JVal :=
  .obj [("selectedWindow", .num 2),
        ("windows", .arr [mkWin [mkTab "u1" "t1"] 1, mkWin [mkTab "u2" "t2"] 1]),
        ("_closedWindows", .arr []),
        ("session", .obj [])]

/-- C1 tclose failing input: one window with two tabs, `selected = 2`,
and the second tab (a valid target) about to be closed. -/
def c1tdoc : JVal :=
  .obj [("selectedWindow", .num 1),
        ("windows", .arr [mkWin [mkTab "u1" "t1", mkTab "u2" "t2"] 2]),
        ("_closedWindows", .arr []),
        ("session", .obj [])]

/-- C5 witness session metadata: both `state` and `recentCrashes`. -/
def c5sess : List (String × JVal) :=
  [("state", .str "running"), ("recentCrashes", .num 2)]

/-- C5 witness document members. -/
def c5o : List (String × JVal) :=
  [("session", .obj c5sess), ("windows", .arr [])]

/-- C5 witness document. -/
def c5doc : JVal := .obj c5o

/-- C5 witness document after the fix edits. -/
def c5docE : JVal :=
  .obj [("session", .obj [("state", .str "stopped")]), ("windows", .arr [])]

/-- C10 failing input tab: one "about:sessionrestore" entry, no
`formdata` key. -/
def c10tab : JVal :=
  .obj [("entries", .arr [.obj [("url", .str "about:sessionrestore")]]), ("index", .num 1)]

/-- C10 failing input: one window, one tab, one sentinel entry, no
`formdata`; session has both `state` and `recentCrashes`. -/
def c10doc : JVal :=
  .obj [("selectedWindow", .num 1),
        ("session", .obj [("state", .str "running"), ("recentCrashes", .num 1)]),
        ("windows", .arr [.obj [("selected", .num 1), ("tabs", .arr [c10tab])]])]

/-- C10 document after the session edits, on which the wrapper test
raises. -/
def c10docE : JVal :=
  .obj [("selectedWindow", .num 1),
        ("session", .obj [("state", .str "stopped")]),
        ("windows", .arr [.obj [("selected", .num 1), ("tabs", .arr [c10tab])]])]

/-- C6 document: one window, three tabs, `selected = 2`. -/
def c6doc : JVal :=
  .obj [("windows", .arr [.obj [
          ("tabs", .arr [mkTab "u1" "t1", mkTab "u2" "t2", mkTab "u3" "t3"]),
          ("selected", .num 2),
          ("_closedTabs", .arr [])]]),
        ("selectedWindow", .num 1),
        ("session", .obj [("state", .str "running")]),
        ("_closedWindows", .arr [])]

/-- C6 document after selecting tab 3. -/
def c6docAfter : JVal :=
  .obj [("windows", .arr [.obj [
          ("tabs", .arr [mkTab "u1" "t1", mkTab "u2" "t2", mkTab "u3" "t3"]),
          ("selected", .num 3),
          ("_closedTabs", .arr [])]]),
        ("selectedWindow", .num 1),
        ("session", .obj [("state", .str "running")]),
        ("_closedWindows", .arr [])]

/-- The serialized bytes of `c6doc` before the `"selected":` field. -/
def c6prefix : String :=
  "\x7b\"windows\":[\x7b\"tabs\":[\x7b\"entries\":[\x7b\"url\":\"u1\",\"title\":\"t1\"\x7d],\"index\":1\x7d,\x7b\"entries\":[\x7b\"url\":\"u2\",\"title\":\"t2\"\x7d],\"index\":1\x7d,\x7b\"entries\":[\x7b\"url\":\"u3\",\"title\":\"t3\"\x7d],\"index\":1\x7d],"

/-- The serialized bytes of `c6doc` after the `"selected":` field. -/
def c6suffix : String :=
  ",\"_closedTabs\":[]\x7d],\"selectedWindow\":1,\"session\":\x7b\"state\":\"running\"\x7d,\"_closedWindows\":[]\x7d"

/-- C2 counterexample filesystem: the profile directory holds only the
plain-JSON primary session file, no checkpoint file, no backups. -/
def c2fs : List String := ["profile/sessionstore.js"]

-- Reduction lemmas for the Except monad, used to unfold the embedded
-- do-notation in proofs.

/-- Bind on a successful Except computation. -/
theorem ebind_ok {α β : Type} (a : α) (f : α → Except PyErr β) :
    (Except.ok a : Except PyErr α) >>= f = f a := rfl

/-- Bind on a failed Except computation. -/
theorem ebind_error {α β : Type} (e : PyErr) (f : α → Except PyErr β) :
    (Except.error e : Except PyErr α) >>= f = Except.error e := rfl

/-- Pure in the Except monad is `Except.ok`. -/
theorem epure_ok {α : Type} (a : α) :
    (pure a : Except PyErr α) = Except.ok a := rfl

-- Association-list lemmas used by the C5 proof.

/-- Setting a key makes it the looked-up value. -/
theorem lookupKV_objSet_self (o : List (String × JVal)) (k : String) (v : JVal) :
    lookupKV (objSet o k v) k = some v := by
  induction o with
  | nil => simp [objSet, lookupKV]
  | cons p rest ih =>
    obtain ⟨k', v'⟩ := p
    by_cases h : k' = k
    · simp [objSet, h, lookupKV]
    · simp [objSet, h, lookupKV, ih]

/-- Setting a key leaves other lookups unchanged. -/
theorem lookupKV_objSet_ne (o : List (String × JVal)) (k k' : String) (v : JVal)
    (h : k' ≠ k) : lookupKV (objSet o k v) k' = lookupKV o k' := by
  induction o with
  | nil =>
    simp [objSet, lookupKV]
    intro e
    exact absurd e.symm h
  | cons p rest ih =>
    obtain ⟨a, b⟩ := p
    by_cases ha : a = k
    · subst ha
      by_cases hb : a = k'
      · exact absurd hb.symm h
      · simp [objSet, lookupKV, hb]
    · by_cases hb : a = k'
      · simp [objSet, ha, lookupKV, hb, h]
      · simp [objSet, ha, lookupKV, hb, ih]

/-- Deleting a key removes it from lookups. -/
theorem lookupKV_objDel_self (o : List (String × JVal)) (k : String) :
    lookupKV (objDel o k) k = none := by
  induction o with
  | nil => rfl
  | cons p rest ih =>
    obtain ⟨a, b⟩ := p
    by_cases h : a = k
    · simp [objDel, h, ih]
    · simp [objDel, h, lookupKV, ih]

/-- Deleting a key leaves other lookups unchanged. -/
theorem lookupKV_objDel_ne (o : List (String × JVal)) (k k' : String)
    (h : k' ≠ k) : lookupKV (objDel o k) k' = lookupKV o k' := by
  induction o with
  | nil => rfl
  | cons p rest ih =>
    obtain ⟨a, b⟩ := p
    by_cases ha : a = k
    · subst ha
      have : a ≠ k' := fun e => h e.symm
      simp [objDel, lookupKV, this, ih]
    · by_cases hb : a = k'
      · simp [objDel, ha, lookupKV, hb, h]
      · simp [objDel, ha, lookupKV, hb, ih]

/-- C9: `showcheckpoint` on an empty checkpoint map returns "Init"; on
a map holding every canonical event as true it returns the label of the
last canonical event with the event name appended in parentheses. -/
theorem showcheckpoint_init_and_all_true :
    showcheckpoint [] = "Init" ∧
    showcheckpoint (checkpointOrder.map fun k => (k, true)) =
      "Stopped (profile-before-change)" := by
  constructor <;> rfl

/-- C3 counterexample: on `c3map` the scan records one skipped event and
leaves one entry in the working copy, yet the returned string does not
contain the "; skipped: ..." suffix — the remaining-keys suffix
overwrote it (`rest = ...`, not `rest += ...`, at line 430). -/
theorem showcheckpoint_skipped_suffix_lost :
    scanCheckpoints checkpointOrder "Init" c3map [] =
      ("Started, Loading session (final-ui-startup)",
       [("quit-application-granted", false)],
       ["sessionstore-windows-restored"]) ∧
    showcheckpoint c3map =
      "Started, Loading session (final-ui-startup); not quit-application-granted" ∧
    strContains (showcheckpoint c3map) "; skipped: " = false := by
  refine ⟨rfl, rfl, ?_⟩
  rfl

/-- C3 amended: whenever the scan leaves a non-empty working copy, the
string returned by `showcheckpoint` is the state followed by only the
"; "-prefixed remaining-keys list (each key prefixed with "not " when
its value is false); any recorded skipped suffix is discarded. -/
theorem showcheckpoint_remaining_overrides (m : List (String × Bool))
    (state : String) (remaining : List (String × Bool)) (skipped : List String)
    (hscan : scanCheckpoints checkpointOrder "Init" m [] = (state, remaining, skipped))
    (hne : remaining ≠ []) :
    showcheckpoint m =
      state ++ "; " ++ String.intercalate ", "
        (remaining.map fun kv => (if kv.2 then "" else "not ") ++ kv.1) := by
  unfold showcheckpoint
  rw [hscan]
  simp [hne, String.append_assoc]

/-- Witness for the C3 amended theorem at the concrete map `c3map`. -/
theorem showcheckpoint_remaining_overrides_witness :
    showcheckpoint c3map =
      "Started, Loading session (final-ui-startup)" ++ "; " ++ String.intercalate ", "
        ([("quit-application-granted", false)].map fun kv =>
          (if kv.2 then "" else "not ") ++ kv.1) :=
  showcheckpoint_remaining_overrides c3map
    "Started, Loading session (final-ui-startup)"
    [("quit-application-granted", false)]
    ["sessionstore-windows-restored"] (by rfl) (by simp)

/-- C1: on a valid close of the last of two windows with
`selectedWindow = 2`, the wclose branch does remove exactly one window
but leaves `selectedWindow = 2`, pointing past the new window count 1
(the clamp test at line 612 is inverted); likewise the tclose branch on
the last of two tabs with `selected = 2` leaves `selected = 2` past the
new tab count 1 (line 624). -/
theorem wclose_tclose_clamp_bug :
    (∃ d, wcloseAction 2 0 c1wdoc = .ok d ∧ numWindows d = some 1 ∧
      objGet d "selectedWindow" = some (.num 2)) ∧
    (∃ d, tcloseAction 1 2 0 c1tdoc = .ok d ∧ numTabs d 0 = some 1 ∧
      winField d 0 "selected" = some (.num 2)) := by
  exact ⟨⟨_, rfl, rfl, rfl⟩, ⟨_, rfl, rfl, rfl⟩⟩

/-- C6: selecting tab 3 in the one-window three-tab `selected = 2`
document and re-serializing yields exactly the original serialization
with the single field `"selected":2` replaced by `"selected":3`; every
other byte (prefix and suffix) is identical. -/
theorem tselect_save_byte_identical :
    tselectAction 1 3 c6doc = .ok c6docAfter ∧
    winField c6docAfter 0 "selected" = some (.num 3) ∧
    dumps c6doc = c6prefix ++ "\"selected\":2" ++ c6suffix ∧
    dumps c6docAfter = c6prefix ++ "\"selected\":3" ++ c6suffix := by
  refine ⟨rfl, rfl, ?_, ?_⟩ <;> rfl

/-- C7: whenever the first 8 bytes of the compressed-variant file
differ from the magic header b"mozLz40\x00", opening fails with
ValueError before any session data is produced (the `Except` result
carries no data). -/
theorem lz4_bad_magic_fails (bs : List Nat) (h : bs.take 8 ≠ magicheader) :
    lz4OpenSessionstore bs = .error (.valueError (bs.take 8)) := by
  simp [lz4OpenSessionstore, h]

/-- Witness for C7 at the concrete byte sequence [0, 1, 2]. -/
theorem lz4_bad_magic_fails_witness :
    ([0, 1, 2] : List Nat).take 8 ≠ magicheader ∧
    lz4OpenSessionstore [0, 1, 2] = .error (.valueError (([0, 1, 2] : List Nat).take 8)) :=
  ⟨by decide, lz4_bad_magic_fails [0, 1, 2] (by decide)⟩

/-- C10: on `c10doc` (one window, one tab, one "about:sessionrestore"
entry, no `formdata`) the session edits of the fix branch succeed and
produce `c10docE` with `state = "stopped"` and no `recentCrashes`, but
the wrapper test then raises KeyError("formdata"), so the whole fix
action fails with that uncaught KeyError. -/
theorem fix_partial_guard_keyerror :
    fixDocEdits c10doc = .ok c10docE ∧
    objGet c10docE "session" = some (.obj [("state", .str "stopped")]) ∧
    wrapperCheck c10docE = .error (.keyError "formdata") ∧
    fixAction none c10doc = .error (.keyError "formdata") := by
  exact ⟨rfl, rfl, rfl, rfl⟩

/-- C2 counterexample: with only the plain-JSON primary file present
(no checkpoint file, no backups), the locator does NOT resolve to the
primary file — `MozSessionProfile2.check` also demands the checkpoint
file, `MozSession1.check` fails on a directory, and resolution returns
no store at all. -/
theorem locator_primary_only_unresolved :
    get_sessionstore true c2fs [] [] (some "profile") = .ok none ∧
    ¬ ∃ s, get_sessionstore true c2fs [] [] (some "profile") = .ok (some s) := by
  refine ⟨rfl, ?_⟩
  rintro ⟨s, hs⟩
  rw [show get_sessionstore true c2fs [] [] (some "profile") = .ok none from rfl] at hs
  simp at hs

/-- C2 amended: the per-variant check requires the checkpoint file as
well; a profile directory whose `sessionstore.js` AND
`sessionCheckpoints.json` both exist (and with no backup files) is
resolved to the plain-JSON primary variant paired with that checkpoint
file. -/
theorem locator_primary_with_checkpoint (lz4Avail : Bool) (fs : List String) (p : String)
    (namedProfiles defaultProfiles : List String)
    (h1 : isfile fs (p ++ "/sessionstore.js") = true)
    (h2 : isfile fs (p ++ "/sessionCheckpoints.json") = true)
    (h3 : isfile fs (p ++ "/sessionstore-backups/recovery.jsonlz4") = false)
    (h4 : isfile fs (p ++ "/sessionstore-backups/recovery.js") = false) :
    get_sessionstore lz4Avail fs namedProfiles defaultProfiles (some p) =
      .ok (some (.profile2 p)) := by
  simp [get_sessionstore, checkPath, checkP4, baseCheck, getFilenames, h1, h2, h3, h4,
        ebind_ok, ebind_error, epure_ok]

/-- Witness for the C2 amended theorem at a concrete filesystem. -/
theorem locator_primary_with_checkpoint_witness :
    get_sessionstore true ["p/sessionstore.js", "p/sessionCheckpoints.json"] [] []
      (some "p") = .ok (some (.profile2 "p")) :=
  locator_primary_with_checkpoint true ["p/sessionstore.js", "p/sessionCheckpoints.json"]
    "p" [] [] (by decide) (by decide) (by decide) (by decide)

/-- C8 counterexample: when nothing resolves anywhere, `main` fails on
the bare `assert store` — an AssertionError carrying no message — not a
NotFoundError naming the search roots. -/
theorem resolve_failure_not_notfound :
    mainResolve true [] [] [] (some "nowhere") = .error .assertionError ∧
    ¬ ∃ roots, mainResolve true [] [] [] (some "nowhere") = .error (.notFoundError roots) := by
  refine ⟨rfl, ?_⟩
  rintro ⟨roots, h⟩
  rw [show mainResolve true [] [] [] (some "nowhere") = .error .assertionError from rfl] at h
  simp at h

/-- C8 amended: whenever resolution finds no candidate, `main` stops at
the bare assertion (AssertionError, naming nothing); no store is
produced, so no action runs and no file is touched. -/
theorem resolve_failure_asserts (lz4Avail : Bool)
    (fs namedProfiles defaultProfiles : List String) (path : Option String)
    (h : get_sessionstore lz4Avail fs namedProfiles defaultProfiles path = .ok none) :
    mainResolve lz4Avail fs namedProfiles defaultProfiles path = .error .assertionError := by
  simp [mainResolve, h, ebind_ok, epure_ok]

/-- Witness for the C8 amended theorem at a concrete empty filesystem. -/
theorem resolve_failure_asserts_witness :
    get_sessionstore true [] [] [] (some "name") = .ok none ∧
    mainResolve true [] [] [] (some "name") = .error .assertionError :=
  ⟨rfl, resolve_failure_asserts true [] [] [] (some "name") rfl⟩

/-- C4: with `--pretend`, for every requested action and every
in-memory state, the file contents after the run equal the contents
before it — the save branch is never taken, whether the action
succeeds or raises. -/
theorem pretend_never_writes (a : MozAction) (w t : Nat) (now : Int) (ss : JVal)
    (cps : Option (List (String × Bool))) (files : FileState) :
    (runMainTail (some a) true w t now ss cps files).1 = files := by
  cases happ : applyAction a w t now ss cps with
  | error e => simp [runMainTail, happ]
  | ok p => simp [runMainTail, happ]

/-- C5: for every document whose session metadata holds both a `state`
and a `recentCrashes` field, and on which the wrapper test of the fix
branch evaluates to false (the document does not match the
crash-recovery wrapper shape), the fix action succeeds and returns the
edited document: `session.state = "stopped"`, no `recentCrashes` key
left, and the `windows` member unchanged. -/
theorem fix_stops_and_preserves_windows (cps : Option (List (String × Bool)))
    (o sess : List (String × JVal)) (ssE : JVal)
    (hsess : lookupKV o "session" = some (.obj sess))
    (hst : (lookupKV sess "state").isSome = true)
    (hrc : (lookupKV sess "recentCrashes").isSome = true)
    (hedit : fixDocEdits (.obj o) = .ok ssE)
    (hguard : wrapperCheck ssE = .ok false) :
    fixAction cps (.obj o) = .ok (ssE, cps.map cpFixAll) ∧
    (∃ sess', objGet ssE "session" = some (.obj sess') ∧
      lookupKV sess' "state" = some (.str "stopped") ∧
      lookupKV sess' "recentCrashes" = none) ∧
    objGet ssE "windows" = lookupKV o "windows" := by
  have hne1 : ("recentCrashes" : String) ≠ "state" := by decide
  have hne2 : ("state" : String) ≠ "recentCrashes" := by decide
  have hne3 : ("windows" : String) ≠ "session" := by decide
  have f1 : getItem (.obj o) "session" = .ok (.obj sess) := by
    simp [getItem, hsess]
  have f2 : pyIn "state" (.obj sess) = .ok true := by
    simp [pyIn, hst]
  have f3 : setNested (.obj o) "session" "state" (.str "stopped") =
      .ok (.obj (objSet o "session" (.obj (objSet sess "state" (.str "stopped"))))) := by
    simp [setNested, f1, setItem, ebind_ok]
  have f4 : lookupKV (objSet o "session" (.obj (objSet sess "state" (.str "stopped")))) "session"
      = some (.obj (objSet sess "state" (.str "stopped"))) := lookupKV_objSet_self o _ _
  have f5 : lookupKV (objSet sess "state" (.str "stopped")) "recentCrashes"
      = lookupKV sess "recentCrashes" := lookupKV_objSet_ne sess _ _ _ hne1
  have f6 : pyIn "recentCrashes" (.obj (objSet sess "state" (.str "stopped"))) = .ok true := by
    simp [pyIn, f5, hrc]
  have f7 : getItem (.obj (objSet o "session" (.obj (objSet sess "state" (.str "stopped")))))
      "session" = .ok (.obj (objSet sess "state" (.str "stopped"))) := by
    simp [getItem, f4]
  have f8 : delItem (.obj (objSet sess "state" (.str "stopped"))) "recentCrashes"
      = .ok (.obj (objDel (objSet sess "state" (.str "stopped")) "recentCrashes")) := by
    simp [delItem, f5, hrc]
  have f9 : delNested (.obj (objSet o "session" (.obj (objSet sess "state" (.str "stopped")))))
      "session" "recentCrashes"
      = .ok (.obj (objSet (objSet o "session" (.obj (objSet sess "state" (.str "stopped"))))
          "session" (.obj (objDel (objSet sess "state" (.str "stopped")) "recentCrashes")))) := by
    simp [delNested, f7, f8, setItem, ebind_ok]
  have hcomp : fixDocEdits (.obj o) =
      .ok (.obj (objSet (objSet o "session" (.obj (objSet sess "state" (.str "stopped"))))
          "session" (.obj (objDel (objSet sess "state" (.str "stopped")) "recentCrashes")))) := by
    simp [fixDocEdits, f1, f2, f3, f6, f7, f9, ebind_ok]
  rw [hcomp] at hedit
  injection hedit with hE
  subst hE
  refine ⟨?_, ⟨objDel (objSet sess "state" (.str "stopped")) "recentCrashes", ?_, ?_, ?_⟩, ?_⟩
  · simp [fixAction, hcomp, hguard, ebind_ok, epure_ok]
  · simp [objGet, lookupKV_objSet_self]
  · rw [lookupKV_objDel_ne _ _ _ hne2]
    exact lookupKV_objSet_self sess _ _
  · exact lookupKV_objDel_self _ _
  · simp only [objGet]
    rw [lookupKV_objSet_ne _ _ _ _ hne3, lookupKV_objSet_ne _ _ _ _ hne3]

/-- Witness for C5 at the concrete document `c5doc`. -/
theorem fix_stops_and_preserves_windows_witness :
    fixAction none c5doc = .ok (c5docE, none) ∧
    (∃ sess', objGet c5docE "session" = some (.obj sess') ∧
      lookupKV sess' "state" = some (.str "stopped") ∧
      lookupKV sess' "recentCrashes" = none) ∧
    objGet c5docE "windows" = lookupKV c5o "windows" :=
  fix_stops_and_preserves_windows none c5o c5sess c5docE rfl rfl rfl rfl rfl
